import Mathlib

/-
  Verification development for the autoTrader repository.

  The embedding below is a shallow model, in Lean 4 over exact rationals, of the
  trading decision engine implemented in
    src/LTCUSD_HighROI_Scalper_v2.py          (namespace V2, the v2 engine)
    src/strategies/LTCUSD_ScalperBot_1m.py    (namespace V1, the strategies variant)
  Prices, ATR values, equity and P&L are modelled as rationals.  Python's
  `round(x, n)` (round-half-to-even on the value) is modelled exactly on
  rationals.  Python truthiness of an optional float (`if self.x:` is False for
  both None and 0.0) is modelled by `truthyQ`.  `try/except` blocks are modelled
  by explicit guards on the expressions that can raise (division by zero, a
  comparison against None, a missing indicator read modelled as `none`); a raise
  aborts the rest of the block while keeping the mutations already made, exactly
  as in Python.
-/

/-- Round-half-to-even on an exact rational, as Python's `round` ties-to-even
behaviour on the value being rounded. -/
def intRoundHalfEven (q : ℚ) : ℤ :=
  if q - ⌊q⌋ < 1/2 then ⌊q⌋
  else if 1/2 < q - ⌊q⌋ then ⌊q⌋ + 1
  else if Even ⌊q⌋ then ⌊q⌋ else ⌊q⌋ + 1

/-- Python's `round(x, n)` on a rational: round `x * 10^n` half-to-even, then
scale back. -/
def roundDp (n : ℕ) (q : ℚ) : ℚ := (intRoundHalfEven (q * 10 ^ n) : ℚ) / 10 ^ n

/-- Python truthiness of an optional float: `None` and `0.0` are falsy. -/
def truthyQ : Option ℚ → Bool
  | none => false
  | some v => v != 0

/-- An order intent emitted while managing an open position: a size-reducing
close (`self.sell(size=...)` / `self.buy(size=...)` against the position) or a
full close (`self.close()`). -/
inductive Intent where
  | partClose (size : ℚ)
  | fullClose
  deriving DecidableEq, Repr

namespace V2

/-- Validated parameters of `LTCUSD_HighROI_Scalper_v2.py` (instance fields set
in `__init__`, defaults as in the `params` tuple).  Only the fields the decision
logic reads are modelled; duplicated backward-compatible aliases are resolved as
`__init__` resolves them. -/
structure Params where
  rsiOb : ℚ := 70                  -- self.rsi_ob
  rsiOs : ℚ := 30                  -- self.rsi_os
  rsiMid : ℚ := 50                 -- self.rsi_mid
  atrStopMult : ℚ := 3/2           -- self.atr_stop_mult
  atrTargetMult : ℚ := 5/2         -- self.atr_target_mult
  volSurgeMult : ℚ := 3/2          -- self.vol_surge
  useTrailing : Bool := true       -- self.use_trailing
  trailAct : ℚ := 1                -- self.trail_activation
  trailDist : ℚ := 4/5             -- self.trail_distance
  usePartExit : Bool := true       -- self.use_partial_exit resolved flag
  partPct : ℚ := 1/2               -- self.partial_pct
  partTargetMult : ℚ := 3/2        -- self.partial_target_mult
  riskPct : ℚ := 1                 -- self.risk_pct
  maxSize : ℚ := 2                 -- self.max_size
  maxDailyLoss : ℚ := 3            -- self.max_daily_loss
  maxTrades : ℕ := 15              -- self.max_trades
  maxConsecLosses : ℕ := 3         -- self.max_consec_losses
  cooldownBars : ℕ := 2            -- self.cooldown_bars
  trade24h : Bool := true          -- self.trade_24h
  avoidLowVol : Bool := false      -- self.avoid_low_vol
  lowVolStart : ℕ := 0             -- self.low_vol_start
  lowVolEnd : ℕ := 4               -- self.low_vol_end
  reqVolumeSurge : Bool := false   -- self.req_volume_surge
  reqMacd : Bool := false          -- self.req_macd
  allowBb : Bool := true           -- self.allow_bb
  reqTrend : Bool := false         -- self.req_trend
  minTrend : ℚ := 3/20             -- self.min_trend
  maxPeriod : ℕ := 26              -- self.max_period = max(21,14,26,20,14,20)
  deriving DecidableEq, Repr

/-- The mutable instance state of the v2 strategy object: position tracking,
risk tracking and trailing-stop tracking, as initialised in `__init__`.
Dates are abstract integers (only equality is used). -/
structure BotState where
  order : Bool                     -- self.order (an order is outstanding)
  entryPrice : Option ℚ            -- self.entry_price
  stopLoss : Option ℚ              -- self.stop_loss
  takeProfit : Option ℚ            -- self.take_profit
  partTarget : Option ℚ            -- self.partial_target
  partDone : Bool                  -- self.position_closed_partial
  dailyTrades : ℕ                  -- self.daily_trades
  dailyPnl : ℚ                     -- self.daily_pnl
  lastTradeDate : Option ℤ         -- self.last_trade_date
  consecLosses : ℕ                 -- self.consecutive_losses
  barsSinceTrade : ℕ               -- self.bars_since_trade
  dailyStartingCash : Option ℚ     -- self.daily_starting_cash
  highestPrice : Option ℚ          -- self.highest_price
  lowestPrice : Option ℚ           -- self.lowest_price
  trailingActive : Bool            -- self.trailing_active
  deriving DecidableEq, Repr

/-- `reset_daily_stats` (v2, lines 302-309): if the bar date differs from
`last_trade_date`, zero the daily counters, re-anchor the daily starting equity
at the current broker value, and remember the date. -/
def resetDailyStats (s : BotState) (today : ℤ) (equityNow : ℚ) : BotState :=
  if s.lastTradeDate ≠ some today then
    { s with dailyPnl := 0, dailyTrades := 0,
             dailyStartingCash := some equityNow, lastTradeDate := some today }
  else s

/-- The daily-loss gate of `check_risk_limits` (v2, lines 315-319).  The Python
guard `if self.daily_starting_cash and self.daily_starting_cash > 0:` is
truthiness (None and 0.0 falsy) plus positivity, i.e. `some c` with `0 < c`;
inside it the veto is `daily_pnl < 0 and abs(daily_pnl / cash) * 100 >=
max_daily_loss`. -/
def lossGateRead (p : Params) (s : BotState) : Bool :=
  match s.dailyStartingCash with
  | some c =>
      decide (0 < c) && decide (s.dailyPnl < 0) &&
        decide (p.maxDailyLoss ≤ |s.dailyPnl / c| * 100)
  | none => false

/-- `check_risk_limits` (v2, lines 311-333).  Runs the daily rollover first,
then the four gates in source order, each an early `return False`.
Returns the gate verdict together with the (possibly rolled-over) state. -/
def checkRiskLimits (p : Params) (s : BotState) (today : ℤ) (equityNow : ℚ) :
    Bool × BotState :=
  let s1 := resetDailyStats s today equityNow
  if lossGateRead p s1 then (false, s1)
  else if p.maxTrades ≤ s1.dailyTrades then (false, s1)
  else if p.maxConsecLosses ≤ s1.consecLosses then (false, s1)
  else if 0 < s1.consecLosses ∧ s1.barsSinceTrade < p.cooldownBars then (false, s1)
  else (true, s1)

/-- Names for the four risk gates, in the order the claim lists them. -/
inductive RiskGate where
  | dailyLoss | tradeCap | lossStreak | cooldown
  deriving DecidableEq, Repr

/-- Modelled from the spec's wording of gate (2): veto iff daily_pnl < 0 and
|daily_pnl| / daily_starting_equity in percent ≥ max_daily_loss_pct (the
division presupposes a recorded positive starting equity). -/
def specDailyLossVeto (p : Params) (s : BotState) : Bool :=
  decide (s.dailyPnl < 0) &&
    (match s.dailyStartingCash with
     | some c => decide (0 < c) && decide (p.maxDailyLoss ≤ |s.dailyPnl| / c * 100)
     | none => false)

/-- Modelled from the spec: the first gate, in the claimed order
daily-loss, trade-cap, loss-streak, cooldown, that vetoes the bar (applied to
the post-rollover state); `none` when every gate passes. -/
def firstRiskVeto (p : Params) (s : BotState) : Option RiskGate :=
  if specDailyLossVeto p s then some RiskGate.dailyLoss
  else if p.maxTrades ≤ s.dailyTrades then some RiskGate.tradeCap
  else if p.maxConsecLosses ≤ s.consecLosses then some RiskGate.lossStreak
  else if 0 < s.consecLosses ∧ s.barsSinceTrade < p.cooldownBars then
    some RiskGate.cooldown
  else none

/-- `is_trading_session` (v2, lines 335-350).  The early return fires when
trading 24/7 without the low-volume filter; otherwise the hour is read inside
`try`, and a failed read (`none`) lands in `except: return True`. -/
def isTradingSession (p : Params) (hour : Option ℕ) : Bool :=
  if p.trade24h && !p.avoidLowVol then true
  else
    match hour with
    | none => true      -- except: return True
    | some h =>
        if p.avoidLowVol && decide (p.lowVolStart ≤ h) && decide (h < p.lowVolEnd) then
          false
        else true

/-- `check_volume_surge` (v2, lines 352-362): without the requirement the check
passes; with it, a failed read falls through `except: pass` to `return False`,
and otherwise the surge comparison decides. -/
def checkVolumeSurge (p : Params) (volume volSma : Option ℚ) : Bool :=
  if !p.reqVolumeSurge then true
  else
    match volume, volSma with
    | some v, some sma => decide (sma * p.volSurgeMult ≤ v)
    | _, _ => false

/-- `check_trend_strength` (v2, lines 364-374): without the requirement the
check passes; with it, a failed indicator read or a zero price (division by
zero) lands in `except: return False`. -/
def checkTrendStrength (p : Params) (price : ℚ) (emaFast emaSlow : Option ℚ) : Bool :=
  if !p.reqTrend then true
  else
    match emaFast, emaSlow with
    | some f, some sl =>
        if price = 0 then false else decide (p.minTrend ≤ |f - sl| / price)
    | _, _ => false

/-- `check_macd_agreement` (v2, lines 376-387): without the requirement the
check passes; with it, a failed MACD read lands in `except: return False`. -/
def checkMacdAgreement (p : Params) (isLong : Bool) (macdLine macdSig : Option ℚ) :
    Bool :=
  if !p.reqMacd then true
  else
    match macdLine, macdSig with
    | some m, some sg => if isLong then decide (sg < m) else decide (m < sg)
    | _, _ => false

/-- `calculate_position_size` (v2, lines 389-412).  `if not atr_value or
atr_value <= 0` collapses to `atr ≤ 0` on rationals.  The code clamps the raw
size to `[0.01, max_size]` FIRST and only then rounds to 2 decimals. -/
def calculatePositionSize (p : Params) (atr : ℚ) (equity : ℚ) : ℚ :=
  if atr ≤ 0 then 1/100
  else if equity ≤ 0 then 1/100
  else
    let riskAmount := equity * (p.riskPct / 100)
    let stopDistance := atr * p.atrStopMult
    if stopDistance ≤ 0 then 1/100
    else roundDp 2 (max (min (riskAmount / stopDistance) p.maxSize) (1/100))

/-- Modelled from the spec's wording of the sizing formula:
`clamp(round(risk_amount / stop_distance, 2), 0.01, max_position_size)`,
i.e. round FIRST, then clamp. -/
def specSizeRoundThenClamp (p : Params) (atr : ℚ) (equity : ℚ) : ℚ :=
  max (min (roundDp 2 (equity * (p.riskPct / 100) / (atr * p.atrStopMult))) p.maxSize)
    (1/100)

/-- The trailing-update block of `update_trailing_stop` for a long position
(v2, lines 435-438): when trailing is active, the candidate stop
`highest - atr * trail_distance` replaces the stop only if the stop is `None`
or the candidate is strictly higher. -/
def applyTrailLong (p : Params) (s : BotState) (atr hp : ℚ) : BotState :=
  if s.trailingActive then
    let ns := hp - atr * p.trailDist
    { s with stopLoss :=
        match s.stopLoss with
        | none => some ns
        | some sl => some (if sl < ns then ns else sl) }
  else s

/-- The trailing-update block of `update_trailing_stop` for a short position
(v2, lines 450-453): the candidate `lowest + atr * trail_distance` replaces the
stop only if the stop is `None` or the candidate is strictly lower. -/
def applyTrailShort (p : Params) (s : BotState) (atr lp : ℚ) : BotState :=
  if s.trailingActive then
    let ns := lp + atr * p.trailDist
    { s with stopLoss :=
        match s.stopLoss with
        | none => some ns
        | some sl => some (if ns < sl then ns else sl) }
  else s

/-- `update_trailing_stop` (v2, lines 414-455).  `posSize` is
`self.position.size`.  The watermark updates first; the activation branch runs
only while inactive with a truthy entry price, and its `profit_atr` division
raises on `atr = 0` — the `except: pass` then aborts the rest of the method,
keeping the watermark already written. -/
def updateTrailingStop (p : Params) (s : BotState) (price atr posSize : ℚ) :
    BotState :=
  if !p.useTrailing || decide (posSize = 0) then s
  else if 0 < posSize then
    let hp : ℚ :=
      match s.highestPrice with
      | none => price
      | some h => if h < price then price else h
    let s1 := { s with highestPrice := some hp }
    if !s1.trailingActive && truthyQ s1.entryPrice then
      if atr = 0 then s1        -- ZeroDivisionError, caught by the bare except
      else
        let e := s1.entryPrice.getD 0
        let s2 :=
          if p.trailAct ≤ (hp - e) / atr then { s1 with trailingActive := true }
          else s1
        applyTrailLong p s2 atr hp
    else applyTrailLong p s1 atr hp
  else if posSize < 0 then
    let lp : ℚ :=
      match s.lowestPrice with
      | none => price
      | some l => if price < l then price else l
    let s1 := { s with lowestPrice := some lp }
    if !s1.trailingActive && truthyQ s1.entryPrice then
      if atr = 0 then s1
      else
        let e := s1.entryPrice.getD 0
        let s2 :=
          if p.trailAct ≤ (e - lp) / atr then { s1 with trailingActive := true }
          else s1
        applyTrailShort p s2 atr lp
    else applyTrailShort p s1 atr lp
  else s

/-- `check_partial_profit` (v2, lines 457-482).  Returns the updated state and
the size of the emitted partial-close order, if any.  A `None` partial target
makes the comparison raise a TypeError, landing in `except: pass` with nothing
changed.  The emitted size is `round(abs(position.size) * partial_pct, 2)` and
the order is only sent when it is at least 0.01. -/
def checkPartProfit (p : Params) (s : BotState) (price posSize : ℚ) :
    BotState × Option ℚ :=
  if !p.usePartExit || decide (posSize = 0) || s.partDone then (s, none)
  else if 0 < posSize then
    match s.partTarget with
    | none => (s, none)
    | some pt =>
        if pt ≤ price then
          let stc := roundDp 2 (|posSize| * p.partPct)
          if 1/100 ≤ stc then
            ({ s with order := true, partDone := true }, some stc)
          else (s, none)
        else (s, none)
  else if posSize < 0 then
    match s.partTarget with
    | none => (s, none)
    | some pt =>
        if price ≤ pt then
          let stc := roundDp 2 (|posSize| * p.partPct)
          if 1/100 ≤ stc then
            ({ s with order := true, partDone := true }, some stc)
          else (s, none)
        else (s, none)
  else (s, none)

/-- The position-management phase of `next` (v2, lines 496-526), entered when a
position is open and no order is pending: update the trailing stop, check the
partial profit (which may submit an order WITHOUT ending the bar), then run the
truthiness-guarded stop-loss and take-profit checks, each of which submits
`self.close()` and returns.  The returned list holds the intents submitted this
bar, in submission order. -/
def manageOpenPosition (p : Params) (s : BotState) (price atr posSize : ℚ) :
    BotState × List Intent :=
  let s1 := updateTrailingStop p s price atr posSize
  let cp := checkPartProfit p s1 price posSize
  let s2 := cp.1
  let stopHit : Bool :=
    match s2.stopLoss with
    | some sl =>
        decide (sl ≠ 0) &&
          ((decide (0 < posSize) && decide (price ≤ sl)) ||
           (decide (posSize < 0) && decide (sl ≤ price)))
    | none => false
  let tpHit : Bool :=
    match s2.takeProfit with
    | some tp =>
        decide (tp ≠ 0) &&
          ((decide (0 < posSize) && decide (tp ≤ price)) ||
           (decide (posSize < 0) && decide (price ≤ tp)))
    | none => false
  -- a stop hit returns before the take-profit check; either way one close order
  let s3 := if stopHit || tpHit then { s2 with order := true } else s2
  (s3, (cp.2.map Intent.partClose).toList ++ if stopHit || tpHit then [Intent.fullClose] else [])

/-- The per-bar indicator snapshot consumed by the entry logic of `next`.
Direct line reads are plain rationals; the reads that the filter methods wrap
in `try` are optional.  The crossover lines carry the CrossOver value, tested
only for sign. -/
structure SignalInputs where
  close : ℚ                        -- self.data.close[0]
  hour : Option ℕ                  -- self.datas[0].datetime.time(0).hour
  atr : ℚ                          -- self.atr[0]
  emaFast : ℚ                      -- self.ema_fast[0]
  emaMedium : ℚ                    -- self.ema_medium[0]
  emaSlow : ℚ                      -- self.ema_slow[0]
  rsi : ℚ                          -- self.rsi[0]
  bbTop : ℚ                        -- self.bb.top[0]
  bbBot : ℚ                        -- self.bb.bot[0]
  fastMediumCross : ℚ              -- self.fast_medium_cross[0]
  macdCross : ℚ                    -- self.macd_cross[0]
  macdLine : Option ℚ              -- self.macd.macd[0] (read inside try)
  macdSig : Option ℚ               -- self.macd.signal[0] (read inside try)
  volume : Option ℚ                -- self.data.volume[0] (read inside try)
  volSma : Option ℚ                -- self.volume_sma[0] (read inside try)
  deriving DecidableEq, Repr

/-- The LONG ENTRY SIGNALS block of `next` (v2, lines 554-579): primary EMA
crossover rule, then the MACD-crossover alternative, then the BB-breakout
alternative; `long_signal` is their disjunction. -/
def longSignal (p : Params) (i : SignalInputs) : Bool :=
  let prim :=
    decide (0 < i.fastMediumCross) && decide (i.emaSlow < i.close) &&
      decide (p.rsiMid < i.rsi) && decide (i.rsi < p.rsiOb) &&
      checkMacdAgreement p true i.macdLine i.macdSig
  let alt1 :=
    decide (0 < i.macdCross) && decide (i.emaMedium < i.emaFast) &&
      decide (i.emaSlow < i.emaMedium) && decide (p.rsiMid < i.rsi) &&
      decide (i.rsi < p.rsiOb)
  let alt2 :=
    p.allowBb && decide (i.bbTop < i.close) && decide (i.emaSlow < i.emaFast) &&
      decide (p.rsiMid < i.rsi) && checkVolumeSurge p i.volume i.volSma
  prim || alt1 || alt2

/-- The SHORT ENTRY SIGNALS block of `next` (v2, lines 581-606). -/
def shortSignal (p : Params) (i : SignalInputs) : Bool :=
  let prim :=
    decide (i.fastMediumCross < 0) && decide (i.close < i.emaSlow) &&
      decide (p.rsiOs < i.rsi) && decide (i.rsi < p.rsiMid) &&
      checkMacdAgreement p false i.macdLine i.macdSig
  let alt1 :=
    decide (i.macdCross < 0) && decide (i.emaFast < i.emaMedium) &&
      decide (i.emaMedium < i.emaSlow) && decide (i.rsi < p.rsiMid) &&
      decide (p.rsiOs < i.rsi)
  let alt2 :=
    p.allowBb && decide (i.close < i.bbBot) && decide (i.emaFast < i.emaSlow) &&
      decide (i.rsi < p.rsiMid) && checkVolumeSurge p i.volume i.volSma
  prim || alt1 || alt2

/-- An executed entry decision with the levels `next` writes at entry. -/
inductive Action where
  | openLong (size stop target partTarget : ℚ)
  | openShort (size stop target partTarget : ℚ)
  deriving DecidableEq, Repr

/-- The EXECUTE TRADES block of `next` (v2, lines 608-635): the `if long_signal
/ elif short_signal` dispatch, with the stop, take-profit and partial-target
levels it computes. -/
def entryAction (p : Params) (i : SignalInputs) (equity : ℚ) : Option Action :=
  if longSignal p i then
    some (Action.openLong (calculatePositionSize p i.atr equity)
      (i.close - i.atr * p.atrStopMult) (i.close + i.atr * p.atrTargetMult)
      (i.close + i.atr * p.partTargetMult))
  else if shortSignal p i then
    some (Action.openShort (calculatePositionSize p i.atr equity)
      (i.close + i.atr * p.atrStopMult) (i.close - i.atr * p.atrTargetMult)
      (i.close - i.atr * p.partTargetMult))
  else none

/-- The flat-side entry pipeline of `next` (v2, lines 528-635), entered with no
open position and no pending order: minimum-data check, risk gates (which may
roll the date over), session filter, ATR gate, trend filter, volume filter, and
only then signal evaluation and order submission with its state writes. -/
def nextFlat (p : Params) (s : BotState) (today : ℤ) (equity : ℚ) (dataLen : ℕ)
    (i : SignalInputs) : BotState × Option Action :=
  if dataLen < p.maxPeriod then (s, none)
  else
    let cr := checkRiskLimits p s today equity
    let s1 := cr.2
    if cr.1 = false then (s1, none)
    else if isTradingSession p i.hour = false then (s1, none)
    else if i.atr ≤ 0 then (s1, none)
    else if checkTrendStrength p i.close (some i.emaFast) (some i.emaSlow) = false then
      (s1, none)
    else if checkVolumeSurge p i.volume i.volSma = false then (s1, none)
    else
      match entryAction p i equity with
      | some (Action.openLong sz st tg pt) =>
          ({ s1 with order := true, stopLoss := some st, takeProfit := some tg,
                     partTarget := some pt, highestPrice := some i.close },
           some (Action.openLong sz st tg pt))
      | some (Action.openShort sz st tg pt) =>
          ({ s1 with order := true, stopLoss := some st, takeProfit := some tg,
                     partTarget := some pt, lowestPrice := some i.close },
           some (Action.openShort sz st tg pt))
      | none => (s1, none)

/-- The bars-since-trade increment at the top of `next` (v2, lines 486-488):
`if self.bars_since_trade < 100: self.bars_since_trade += 1`. -/
def tickBars (s : BotState) : BotState :=
  if s.barsSinceTrade < 100 then
    { s with barsSinceTrade := s.barsSinceTrade + 1 }
  else s

/-- `notify_order` (v2, lines 241-294), Completed branch.  `execPrice` and
`execSize` are the fill's `order.executed` fields; `posSize` is
`self.position.size` as the broker reports it at notification time.  A buy
fill only initialises entry state when `entry_price` is falsy — a buy that
closes a short position matches neither branch and changes nothing.  A sell
fill with a truthy `entry_price` books P&L and the loss streak, and resets the
position state when the position is gone (`not self.position`, i.e. size 0).
The handler always clears `self.order` at the end. -/
def notifyOrder (s : BotState) (isBuy : Bool) (execPrice execSize posSize : ℚ) :
    BotState :=
  if isBuy then
    if !truthyQ s.entryPrice then
      { s with entryPrice := some execPrice, barsSinceTrade := 0,
               trailingActive := false, partDone := false,
               dailyTrades := s.dailyTrades + 1, order := false }
    else { s with order := false }
  else
    if !truthyQ s.entryPrice then
      { s with entryPrice := some execPrice, barsSinceTrade := 0,
               trailingActive := false, partDone := false,
               dailyTrades := s.dailyTrades + 1, order := false }
    else
      let e := s.entryPrice.getD 0
      let pnl : ℚ :=
        if 0 < posSize then (execPrice - e) * |execSize|
        else (e - execPrice) * |execSize|
      let s1 := { s with dailyPnl := s.dailyPnl + pnl,
                         consecLosses := if pnl < 0 then s.consecLosses + 1 else 0 }
      let s2 :=
        if posSize = 0 then
          { s1 with entryPrice := none, stopLoss := none, takeProfit := none,
                    partTarget := none, highestPrice := none, lowestPrice := none,
                    trailingActive := false, partDone := false }
        else s1
      { s2 with order := false }

end V2

namespace V1

/-- Exit-management parameters of `strategies/LTCUSD_ScalperBot_1m.py`
(defaults as in its `params` tuple). -/
structure Params where
  atrStopMult : ℚ := 3/2           -- atr_stop_multiplier
  atrTargetMult : ℚ := 5/2         -- atr_target_multiplier
  beMult : ℚ := 1                  -- atr_breakeven_multiplier
  useTrailing : Bool := true       -- use_trailing_stop
  trailAct : ℚ := 1                -- trailing_activation_atr
  trailDist : ℚ := 6/5             -- trailing_distance_atr
  usePartExits : Bool := true      -- use_partial_exits
  partPct : ℚ := 1/2               -- partial_exit_percent
  partAtr : ℚ := 3/2               -- partial_exit_atr
  deriving DecidableEq, Repr

/-- The position-management state of the strategies variant. -/
structure PosState where
  order : Bool                     -- self.order
  entryPrice : Option ℚ            -- self.entry_price
  stopLoss : Option ℚ              -- self.stop_loss
  takeProfit : Option ℚ            -- self.take_profit
  breakevenMoved : Bool            -- self.breakeven_moved
  partDone : Bool                  -- self.partial_exit_done
  trailingActive : Bool            -- self.trailing_active
  highestPrice : Option ℚ          -- self.highest_price
  lowestPrice : Option ℚ           -- self.lowest_price
  deriving DecidableEq, Repr

/-- The stop-loss / take-profit checks at the end of `update_stop_and_target`
for a long position (lines 430-440): truthiness-guarded; the first hit submits
`self.close()` and returns. -/
def exitChecksLong (s : PosState) (price : ℚ) : PosState × Option Intent :=
  let stopHit : Bool :=
    match s.stopLoss with
    | some sl => decide (sl ≠ 0) && decide (price ≤ sl)
    | none => false
  if stopHit then ({ s with order := true }, some Intent.fullClose)
  else
    let tpHit : Bool :=
      match s.takeProfit with
      | some tp => decide (tp ≠ 0) && decide (tp ≤ price)
      | none => false
    if tpHit then ({ s with order := true }, some Intent.fullClose)
    else (s, none)

/-- The stop-loss / take-profit checks for a short position (lines 482-492). -/
def exitChecksShort (s : PosState) (price : ℚ) : PosState × Option Intent :=
  let stopHit : Bool :=
    match s.stopLoss with
    | some sl => decide (sl ≠ 0) && decide (sl ≤ price)
    | none => false
  if stopHit then ({ s with order := true }, some Intent.fullClose)
  else
    let tpHit : Bool :=
      match s.takeProfit with
      | some tp => decide (tp ≠ 0) && decide (price ≤ tp)
      | none => false
    if tpHit then ({ s with order := true }, some Intent.fullClose)
    else (s, none)

/-- `update_stop_and_target` (strategies variant, lines 381-495).  `posSize` is
`self.position.size`.  The body is one `try`: each `profit_atr` division
raises on `atr = 0` and the catch-all keeps the mutations already made.  The
breakeven move is NOT improvement-gated: it overwrites the stop with
`entry ± atr * 0.1` whenever it fires.  The partial-exit branch returns
immediately after submitting its order; the trailing branch updates the stop
only if the candidate improves it; then the stop/take-profit checks run. -/
def updateStopAndTarget (p : Params) (s : PosState) (price atr posSize : ℚ) :
    PosState × Option Intent :=
  if decide (posSize = 0) || !truthyQ s.entryPrice then (s, none)
  else
    let e := s.entryPrice.getD 0
    if 0 < posSize then
      let hp : ℚ :=
        match s.highestPrice with
        | none => price
        | some h => if h < price then price else h
      let s1 := { s with highestPrice := some hp }
      if !s1.breakevenMoved && decide (atr = 0) then (s1, none)  -- raise in breakeven
      else
        let s2 :=
          if !s1.breakevenMoved && decide (p.beMult ≤ (price - e) / atr) then
            { s1 with stopLoss := some (e + atr * (1/10)), breakevenMoved := true }
          else s1
        if p.usePartExits && !s2.partDone && decide (atr = 0) then (s2, none)
        else
          let psz := posSize * p.partPct   -- long branch has no abs() here
          if p.usePartExits && !s2.partDone && decide (p.partAtr ≤ (price - e) / atr)
              && decide (1/100 ≤ psz) then
            ({ s2 with partDone := true, order := true }, some (Intent.partClose psz))
          else
            if p.useTrailing && decide (atr = 0) then (s2, none)  -- raise in trailing
            else
              let s3 :=
                if p.useTrailing && decide (p.trailAct ≤ (hp - e) / atr) then
                  let ns := hp - atr * p.trailDist
                  { s2 with trailingActive := true,
                            stopLoss :=
                              match s2.stopLoss with
                              | none => some ns
                              | some sl => some (if sl < ns then ns else sl) }
                else s2
              exitChecksLong s3 price
    else if posSize < 0 then
      let lp : ℚ :=
        match s.lowestPrice with
        | none => price
        | some l => if price < l then price else l
      let s1 := { s with lowestPrice := some lp }
      if !s1.breakevenMoved && decide (atr = 0) then (s1, none)
      else
        let s2 :=
          if !s1.breakevenMoved && decide (p.beMult ≤ (e - price) / atr) then
            { s1 with stopLoss := some (e - atr * (1/10)), breakevenMoved := true }
          else s1
        if p.usePartExits && !s2.partDone && decide (atr = 0) then (s2, none)
        else
          let psz := |posSize| * p.partPct  -- short branch uses abs()
          if p.usePartExits && !s2.partDone && decide (p.partAtr ≤ (e - price) / atr)
              && decide (1/100 ≤ psz) then
            ({ s2 with partDone := true, order := true }, some (Intent.partClose psz))
          else
            if p.useTrailing && decide (atr = 0) then (s2, none)
            else
              let s3 :=
                if p.useTrailing && decide (p.trailAct ≤ (e - lp) / atr) then
                  let ns := lp + atr * p.trailDist
                  { s2 with trailingActive := true,
                            stopLoss :=
                              match s2.stopLoss with
                              | none => some ns
                              | some sl => some (if ns < sl then ns else sl) }
                else s2
              exitChecksShort s3 price
    else (s, none)

end V1

/-- A clean flat v2 state: no position, no pending order, fresh daily counters
anchored at date 0 with 10000 starting equity. -/
def freshFlat : V2.BotState :=
  { order := false, entryPrice := none, stopLoss := none, takeProfit := none,
    partTarget := none, partDone := false, dailyTrades := 0, dailyPnl := 0,
    lastTradeDate := some 0, consecLosses := 0, barsSinceTrade := 5,
    dailyStartingCash := some 10000, highestPrice := none, lowestPrice := none,
    trailingActive := false }

/-- A bar snapshot on which the primary long rule fires under default
parameters: bullish EMA crossover, price above the slow EMA, RSI at 60. -/
def sigLong : V2.SignalInputs :=
  { close := 100, hour := some 12, atr := 1/2, emaFast := 100, emaMedium := 100,
    emaSlow := 99, rsi := 60, bbTop := 101, bbBot := 95, fastMediumCross := 1,
    macdCross := 0, macdLine := some 1, macdSig := some 0, volume := some 1000,
    volSma := some 500 }

/-- An open long position in the v2 engine one bar after entry at 100 with
entry-time ATR 2: stop 97, take-profit 105, partial target 103, size 2. -/
def c1LongOpen : V2.BotState :=
  { order := false, entryPrice := some 100, stopLoss := some 97,
    takeProfit := some 105, partTarget := some 103, partDone := false,
    dailyTrades := 1, dailyPnl := 0, lastTradeDate := some 0, consecLosses := 0,
    barsSinceTrade := 1, dailyStartingCash := some 10000,
    highestPrice := some 100, lowestPrice := none, trailingActive := false }

/-- Default v2 parameters except a maximum position size of 0.016 lots, which
is not a multiple of the 0.01 rounding step. -/
def c3Params : V2.Params := { maxSize := 2/125 }

/-- The v2 state of the claim-C4 witness: an open long from 100 whose trailing
stop is active at 104.4 with watermark 106. -/
def c4LongTrailing : V2.BotState :=
  { freshFlat with entryPrice := some 100, stopLoss := some (522/5),
                   takeProfit := some 105, partTarget := some 103,
                   partDone := true, highestPrice := some 106,
                   trailingActive := true }

/-- Strategies-variant position state right after a long entry fill at 100 with
entry-time ATR 2.5: stop 96.25, take-profit 106.25, watermark seeded at the
entry bar's close. -/
def c4s0 : V1.PosState :=
  { order := false, entryPrice := some 100, stopLoss := some (385/4),
    takeProfit := some (425/4), breakevenMoved := false, partDone := false,
    trailingActive := false, highestPrice := some 100, lowestPrice := none }

/-- Bar A of the claim-C4 trace: close 102, ATR 2.5 — nothing fires, the
watermark moves to 102. -/
def c4r1 : V1.PosState × Option Intent := V1.updateStopAndTarget {} c4s0 102 (5/2) (1/2)

/-- Bar B: close 100.9, ATR 1 — the trailing stop activates off the 102
watermark and lifts the stop to 100.8; breakeven has not fired. -/
def c4r2 : V1.PosState × Option Intent :=
  V1.updateStopAndTarget {} c4r1.1 (1009/10) 1 (1/2)

/-- Bar C: close 101.5, ATR 1.2 — the breakeven move fires AFTER trailing
activation and overwrites the 100.8 stop with 100.12; trailing then only
recovers to 100.56. -/
def c4r3 : V1.PosState × Option Intent :=
  V1.updateStopAndTarget {} c4r2.1 (203/2) (6/5) (1/2)

/-- A v2 state in which a short opened at 105 has just been fully closed by a
buy fill (position size now 0): the entry price and exit levels are still
populated and one loss is on the streak. -/
def c7ShortClosed : V2.BotState :=
  { order := true, entryPrice := some 105, stopLoss := some 110,
    takeProfit := some (385/4), partTarget := some (405/4), partDone := false,
    dailyTrades := 3, dailyPnl := 0, lastTradeDate := some 0, consecLosses := 1,
    barsSinceTrade := 7, dailyStartingCash := some 10000, highestPrice := none,
    lowestPrice := some 100, trailingActive := true }

/-- A v2 state in which a short opened at 105 has just been reduced by a buy
fill, leaving one lot short. -/
def c10ShortOpen : V2.BotState :=
  { order := true, entryPrice := some 105, stopLoss := some 110,
    takeProfit := some (385/4), partTarget := some (405/4), partDone := true,
    dailyTrades := 2, dailyPnl := 0, lastTradeDate := some 0, consecLosses := 0,
    barsSinceTrade := 4, dailyStartingCash := some 10000, highestPrice := none,
    lowestPrice := some 99, trailingActive := false }

/-- Default v2 parameters with the low-volume-hours filter switched on, so that
`is_trading_session` actually reads the bar's hour. -/
def c9Params : V2.Params := { avoidLowVol := true }

/-- The long-signal bar snapshot with a failing hour read. -/
def c9NoHour : V2.SignalInputs := { sigLong with hour := none }

/-- Default v2 parameters with every optional entry filter required. -/
def c9AllReq : V2.Params :=
  { reqVolumeSurge := true, reqTrend := true, reqMacd := true }

/-- A v2 flat state with three consecutive losses on the books. -/
def c2VetoState : V2.BotState := { freshFlat with consecLosses := 3 }

-- ======================================================================
-- Helper lemmas
-- ======================================================================

theorem intRoundHalfEven_ge_floor (q : ℚ) : ⌊q⌋ ≤ intRoundHalfEven q := by
  unfold intRoundHalfEven
  split_ifs <;> omega

theorem intRoundHalfEven_le_ceil (q : ℚ) : intRoundHalfEven q ≤ ⌈q⌉ := by
  unfold intRoundHalfEven
  split_ifs with h1 h2 h3
  · exact Int.floor_le_ceil q
  · have hlt : (⌊q⌋ : ℚ) < q := by linarith
    have := Int.lt_ceil.mpr hlt
    omega
  · exact Int.floor_le_ceil q
  · push_neg at h1
    have hlt : (⌊q⌋ : ℚ) < q := by linarith
    have := Int.lt_ceil.mpr hlt
    omega

theorem roundDp_two_bounds (q : ℚ) (m : ℕ) (h1 : 1/100 ≤ q) (h2 : q ≤ (m : ℚ) / 100) :
    1/100 ≤ roundDp 2 q ∧ roundDp 2 q ≤ (m : ℚ) / 100 := by
  have hq1 : (1 : ℚ) ≤ q * 10 ^ 2 := by norm_num at h1 ⊢; linarith
  have hq2 : q * 10 ^ 2 ≤ (m : ℚ) := by norm_num at h2 ⊢; linarith
  have hfloor : (1 : ℤ) ≤ ⌊q * 10 ^ 2⌋ := Int.le_floor.mpr (by exact_mod_cast hq1)
  have hceil : ⌈q * 10 ^ 2⌉ ≤ (m : ℤ) := Int.ceil_le.mpr (by exact_mod_cast hq2)
  have hlo : (1 : ℤ) ≤ intRoundHalfEven (q * 10 ^ 2) :=
    le_trans hfloor (intRoundHalfEven_ge_floor _)
  have hhi : intRoundHalfEven (q * 10 ^ 2) ≤ (m : ℤ) :=
    le_trans (intRoundHalfEven_le_ceil _) hceil
  have hloQ : (1 : ℚ) ≤ (intRoundHalfEven (q * 10 ^ 2) : ℚ) := by exact_mod_cast hlo
  have hhiQ : (intRoundHalfEven (q * 10 ^ 2) : ℚ) ≤ (m : ℚ) := by exact_mod_cast hhi
  unfold roundDp
  norm_num at hloQ hhiQ ⊢
  constructor <;> linarith

-- ======================================================================
-- Claim C8
-- ======================================================================

/-- Claim C8: the daily-stats reset is a no-op when the date is unchanged —
with `last_reset_date` equal to the current bar's date the daily P&L, trade
count and starting equity are untouched — and the daily fields reset exactly
once per date change (the reset is idempotent for a fixed date, which it stamps
into `last_trade_date`; on a changed date it zeroes the counters and re-anchors
the starting equity). -/
theorem c8_daily_reset (s : V2.BotState) (d : ℤ) (ev1 ev2 : ℚ) :
    (s.lastTradeDate = some d → V2.resetDailyStats s d ev1 = s)
  ∧ (V2.resetDailyStats s d ev1).lastTradeDate = some d
  ∧ V2.resetDailyStats (V2.resetDailyStats s d ev1) d ev2 = V2.resetDailyStats s d ev1
  ∧ (s.lastTradeDate ≠ some d →
       (V2.resetDailyStats s d ev1).dailyPnl = 0 ∧
       (V2.resetDailyStats s d ev1).dailyTrades = 0 ∧
       (V2.resetDailyStats s d ev1).dailyStartingCash = some ev1) := by
  by_cases h : s.lastTradeDate = some d
  · simp [V2.resetDailyStats, h]
  · simp [V2.resetDailyStats, h]

/-- Witness for C8 at a concrete state: same-date reset is the identity, and
the reset state carries the stamped date. -/
theorem c8_witness :
    V2.resetDailyStats freshFlat 0 10000 = freshFlat
  ∧ (V2.resetDailyStats freshFlat 0 10000).lastTradeDate = some 0 :=
  ⟨(c8_daily_reset freshFlat 0 10000 10000).1 rfl,
   (c8_daily_reset freshFlat 0 10000 10000).2.1⟩

-- ======================================================================
-- Claim C7
-- ======================================================================

/-- Claim C7 (code evaluated at the failing input): when a short position's
full-close fill arrives — a BUY execution with a truthy `entry_price`, position
size now 0 — `notify_order` changes nothing except clearing the pending-order
flag: no P&L is booked (here the close realises (105-120)*1 < 0, a loss), the
loss streak is not updated, and the position state (entry price, stops,
watermarks, flags) is NOT reset to flat. -/
theorem c7_short_close_untracked :
    V2.notifyOrder c7ShortClosed true 120 1 0 = { c7ShortClosed with order := false }
  ∧ ((105 : ℚ) - 120) * |(1 : ℚ)| < 0 :=
  ⟨rfl, by rw [abs_one]; norm_num⟩

-- ======================================================================
-- Claim C10
-- ======================================================================

/-- The sell branch of `notify_order` with a truthy entry price books
`daily_pnl` and the streak from the pnl computed by the position-sign formula
of lines 266-269 (`self.position.size` is the broker's POST-fill size at
notification time — line 281's `if not self.position:` full-close test relies
on exactly that); buy fills with a truthy entry price change neither counter. -/
theorem notifyOrder_sell_books (s : V2.BotState) (e price sz posSize : ℚ)
    (he : s.entryPrice = some e) (hne : e ≠ 0) :
    ((V2.notifyOrder s false price sz posSize).dailyPnl =
       s.dailyPnl + (if 0 < posSize then (price - e) * |sz| else (e - price) * |sz|))
  ∧ ((V2.notifyOrder s false price sz posSize).consecLosses =
       if (if 0 < posSize then (price - e) * |sz| else (e - price) * |sz|) < 0 then
         s.consecLosses + 1 else 0)
  ∧ (V2.notifyOrder s true price sz posSize).dailyPnl = s.dailyPnl
  ∧ (V2.notifyOrder s true price sz posSize).consecLosses = s.consecLosses := by
  have htr2 : truthyQ (some e) = true := by simp [truthyQ, hne]
  simp only [V2.notifyOrder, he, htr2, Option.getD_some, Bool.not_true,
    Bool.false_eq_true, if_false]
  refine ⟨?_, ?_, rfl, rfl⟩ <;> split_ifs <;> rfl

/-- Counterexample for C10, both ways the claim fails.  (1) Wrong sign: a sell
fill FULLY closing a long (entry 200, exit 150, size 2 — realized P&L −100;
the position is already flat at notification, so `self.position.size > 0` is
false and the `# Was short` formula runs): `daily_pnl` INCREASES by 100 and
the loss streak of 2 is CLEARED to 0 by this losing close, instead of daily_pnl
falling by 100 and the streak advancing to 3.  (2) Ignored buys: a buy fill
reducing an open short (entry 105, buy back at 100 — realized +5) changes
nothing but the pending-order flag. -/
theorem c10_cex_wrong_sign_and_ignored_buys :
    ((150 : ℚ) - 200) * |(2 : ℚ)| < 0
  ∧ (V2.notifyOrder { freshFlat with entryPrice := some 200, consecLosses := 2 }
       false 150 2 0).dailyPnl = 100
  ∧ (V2.notifyOrder { freshFlat with entryPrice := some 200, consecLosses := 2 }
       false 150 2 0).consecLosses = 0
  ∧ V2.notifyOrder c10ShortOpen true 100 1 (-1) = { c10ShortOpen with order := false }
  ∧ 0 < ((105 : ℚ) - 100) * |(1 : ℚ)| := by
  refine ⟨?_, ?_, ?_, rfl, by rw [abs_one]; norm_num⟩
  · rw [show |(2:ℚ)| = 2 from abs_of_pos (by norm_num)]
    norm_num
  · norm_num [V2.notifyOrder, truthyQ, freshFlat,
      show |(2:ℚ)| = 2 from abs_of_pos (by norm_num)]
  · norm_num [V2.notifyOrder, truthyQ, freshFlat,
      show |(2:ℚ)| = 2 from abs_of_pos (by norm_num)]

/-- Claim C10 (amended): a closing execution feeds the risk counters only when
it is a SELL fill with a truthy entry price, and the booked amount follows the
position sign at notification time (post-fill).  While the position is still
long — a partial close of a long — the handler books the realized P&L
(exit − entry)·|size|, so a losing partial close advances the streak even if
the trade later closes at an overall profit, and an exactly-zero P&L clears
it.  Otherwise — in particular on a FULL close of a long, whose position is
already flat when the notification arrives — it books (entry − exit)·|size|,
the NEGATION of the realized P&L: daily_pnl moves opposite to the close and
the streak increments exactly on a winning close.  Closing BUY executions
(partial or full closes of shorts) update neither counter. -/
theorem c10_close_booking (s : V2.BotState) (e price sz posSize : ℚ)
    (he : s.entryPrice = some e) (hne : e ≠ 0) :
    (0 < posSize →
       (V2.notifyOrder s false price sz posSize).dailyPnl =
           s.dailyPnl + (price - e) * |sz| ∧
       (V2.notifyOrder s false price sz posSize).consecLosses =
           (if (price - e) * |sz| < 0 then s.consecLosses + 1 else 0))
  ∧ (¬ 0 < posSize →
       (V2.notifyOrder s false price sz posSize).dailyPnl =
           s.dailyPnl - (price - e) * |sz| ∧
       (V2.notifyOrder s false price sz posSize).consecLosses =
           (if 0 < (price - e) * |sz| then s.consecLosses + 1 else 0))
  ∧ (V2.notifyOrder s true price sz posSize).dailyPnl = s.dailyPnl
  ∧ (V2.notifyOrder s true price sz posSize).consecLosses = s.consecLosses := by
  obtain ⟨hpnl, hstreak, hb1, hb2⟩ := notifyOrder_sell_books s e price sz posSize he hne
  have hswap : (e - price) * |sz| = -((price - e) * |sz|) := by ring
  refine ⟨fun hp => ⟨?_, ?_⟩, fun hnp => ⟨?_, ?_⟩, hb1, hb2⟩
  · rw [hpnl, if_pos hp]
  · rw [hstreak, if_pos hp]
  · rw [hpnl, if_neg hnp, hswap]
    ring
  · rw [hstreak, if_neg hnp, hswap]
    simp only [neg_lt_zero]

/-- Witness for C10: a losing partial close of a long (sell at 98 against entry
100, one lot, position size still +1 at notification) books the realized −2
into daily P&L and advances the loss streak; a full close of a long at the
same prices (position size 0 at notification) books +2 — the negated realized
P&L — and resets the streak. -/
theorem c10_witness_close_booking :
    ((V2.notifyOrder { freshFlat with entryPrice := some 100 } false 98 1 1).dailyPnl =
       { freshFlat with entryPrice := some 100 }.dailyPnl + ((98:ℚ) - 100) * |(1:ℚ)|
  ∧ (V2.notifyOrder { freshFlat with entryPrice := some 100 } false 98 1 1).consecLosses =
       (if ((98:ℚ) - 100) * |(1:ℚ)| < 0 then
         { freshFlat with entryPrice := some 100 }.consecLosses + 1 else 0))
  ∧ ((V2.notifyOrder { freshFlat with entryPrice := some 100 } false 98 1 0).dailyPnl =
       { freshFlat with entryPrice := some 100 }.dailyPnl - ((98:ℚ) - 100) * |(1:ℚ)|
  ∧ (V2.notifyOrder { freshFlat with entryPrice := some 100 } false 98 1 0).consecLosses =
       (if 0 < ((98:ℚ) - 100) * |(1:ℚ)| then
         { freshFlat with entryPrice := some 100 }.consecLosses + 1 else 0)) :=
  ⟨(c10_close_booking { freshFlat with entryPrice := some 100 } 100 98 1 1 rfl
      (by norm_num)).1 (by norm_num),
   (c10_close_booking { freshFlat with entryPrice := some 100 } 100 98 1 0 rfl
      (by norm_num)).2.1 (by norm_num)⟩

-- ======================================================================
-- Claim C9
-- ======================================================================

/-- Counterexample for C9: the session filter's exception branch returns the
value that PERMITS an entry, not the one that blocks it — with the low-volume
filter active and a failing hour read, `is_trading_session` returns True, and
the flat-side pipeline goes on to submit a long entry on that very bar. -/
theorem c9_cex_session_failure_allows_entry :
    c9NoHour.hour = none
  ∧ V2.isTradingSession c9Params none = true
  ∧ (V2.nextFlat c9Params freshFlat 0 10000 30 c9NoHour).2 =
      some (V2.Action.openLong 2 (397/4) (405/4) (403/4)) := by
  refine ⟨rfl, rfl, ?_⟩
  norm_num [V2.nextFlat, V2.checkRiskLimits, V2.lossGateRead, V2.resetDailyStats,
    V2.isTradingSession,
    V2.checkTrendStrength, V2.checkVolumeSurge, V2.entryAction, V2.longSignal,
    V2.shortSignal, V2.checkMacdAgreement, V2.calculatePositionSize, roundDp,
    intRoundHalfEven, min_def, max_def, c9Params, c9NoHour, sigLong, freshFlat]

/-- Claim C9 (amended): each per-bar filter is total, and on an evaluation
failure the volume-surge, trend-strength and MACD-agreement checks return
False (blocking the entry) while the session check returns True (permitting
it) — each check keeps its own polarity. -/
theorem c9_filter_failure_polarity (p : V2.Params) (d : Bool) (price a b : ℚ)
    (vs : Option ℚ) :
    V2.isTradingSession p none = true
  ∧ (p.reqVolumeSurge = true →
       V2.checkVolumeSurge p none vs = false ∧
       V2.checkVolumeSurge p (some a) none = false)
  ∧ (p.reqTrend = true →
       V2.checkTrendStrength p price none none = false ∧
       V2.checkTrendStrength p 0 (some a) (some b) = false)
  ∧ (p.reqMacd = true → V2.checkMacdAgreement p d none none = false) := by
  refine ⟨?_, fun h => ⟨?_, ?_⟩, fun h => ⟨?_, ?_⟩, fun h => ?_⟩
  · unfold V2.isTradingSession
    split_ifs <;> rfl
  · cases vs <;> simp [V2.checkVolumeSurge, h]
  · simp [V2.checkVolumeSurge, h]
  · simp [V2.checkTrendStrength, h]
  · simp [V2.checkTrendStrength, h]
  · cases d <;> simp [V2.checkMacdAgreement, h]

/-- Witness for C9 with every optional filter required. -/
theorem c9_witness :
    V2.isTradingSession c9AllReq none = true
  ∧ V2.checkVolumeSurge c9AllReq none (some 5) = false
  ∧ V2.checkTrendStrength c9AllReq 0 (some 1) (some 2) = false
  ∧ V2.checkMacdAgreement c9AllReq true none none = false := by
  have h := c9_filter_failure_polarity c9AllReq true 0 1 2 (some 5)
  exact ⟨h.1, (h.2.1 rfl).1, (h.2.2.1 rfl).2, h.2.2.2 rfl⟩

-- ======================================================================
-- Claim C3
-- ======================================================================

/-- Counterexample for C3: with ATR = 0.5 > 0, equity = 10000 > 0 and
max_position_size = 0.016, the sizer clamps to 0.016 FIRST and then rounds to
two decimals, returning 0.02 — strictly above max_position_size, hence outside
[0.01, max_position_size], and different from the spec's
round-then-clamp formula, which yields 0.016. -/
theorem c3_cex_clamp_then_round :
    V2.calculatePositionSize c3Params (1/2) 10000 = 1/50
  ∧ c3Params.maxSize < 1/50
  ∧ (0:ℚ) < 1/2 ∧ (0:ℚ) < 10000
  ∧ V2.specSizeRoundThenClamp c3Params (1/2) 10000 = 2/125 := by
  norm_num [V2.calculatePositionSize, V2.specSizeRoundThenClamp, c3Params,
    roundDp, intRoundHalfEven, min_def, max_def]

/-- Claim C3 (amended): the sizer returns round(clamp(risk_amount /
stop_distance, 0.01, max_position_size), 2) — clamp before round; the result
lies in [0.01, max_position_size] whenever ATR > 0, equity > 0, the stop
multiplier is positive and max_position_size is a positive whole multiple of
0.01; it returns exactly 0.01 when ATR ≤ 0, equity ≤ 0 or stop_distance ≤ 0;
and the spec's Scenario A (equity 10000, risk 1%, ATR 0.5, stop multiplier
1.5, max 2.0) yields 2.0. -/
theorem c3_sizer (p : V2.Params) (atr equity : ℚ) (m : ℕ) :
    (0 < atr → 0 < equity → 0 < p.atrStopMult → p.maxSize = (m : ℚ) / 100 → 1 ≤ m →
       1/100 ≤ V2.calculatePositionSize p atr equity ∧
       V2.calculatePositionSize p atr equity ≤ p.maxSize)
  ∧ (atr ≤ 0 → V2.calculatePositionSize p atr equity = 1/100)
  ∧ (0 < atr → equity ≤ 0 → V2.calculatePositionSize p atr equity = 1/100)
  ∧ (0 < atr → 0 < equity → atr * p.atrStopMult ≤ 0 →
       V2.calculatePositionSize p atr equity = 1/100)
  ∧ V2.calculatePositionSize {} (1/2) 10000 = 2 := by
  refine ⟨?_, ?_, ?_, ?_,
    by norm_num [V2.calculatePositionSize, roundDp, intRoundHalfEven, min_def, max_def]⟩
  · intro h1 h2 h3 h4 h5
    have hsd : 0 < atr * p.atrStopMult := mul_pos h1 h3
    simp only [V2.calculatePositionSize, if_neg (not_le.mpr h1),
      if_neg (not_le.mpr h2), if_neg (not_le.mpr hsd)]
    have hclampLo :
        1/100 ≤ max (min (equity * (p.riskPct / 100) / (atr * p.atrStopMult)) p.maxSize)
          (1/100) := le_max_right _ _
    have hmq : (1:ℚ)/100 ≤ (m:ℚ)/100 := by
      have hm : (1:ℚ) ≤ (m:ℚ) := by exact_mod_cast h5
      linarith
    have hclampHi :
        max (min (equity * (p.riskPct / 100) / (atr * p.atrStopMult)) p.maxSize)
          (1/100) ≤ (m:ℚ)/100 := by
      apply max_le _ hmq
      exact le_trans (min_le_right _ _) (le_of_eq h4)
    have hb := roundDp_two_bounds _ m hclampLo hclampHi
    exact ⟨hb.1, by conv_rhs => rw [h4]
                    exact hb.2⟩
  · intro h
    simp [V2.calculatePositionSize, h]
  · intro h1 h2
    simp [V2.calculatePositionSize, if_neg (not_le.mpr h1), h2]
  · intro h1 h2 h3
    simp [V2.calculatePositionSize, if_neg (not_le.mpr h1), if_neg (not_le.mpr h2), h3]

/-- Witness for C3 at the default parameters (max size 2.0 = 200 × 0.01). -/
theorem c3_witness :
    1/100 ≤ V2.calculatePositionSize {} (1/2) 10000 ∧
      V2.calculatePositionSize {} (1/2) 10000 ≤ ({} : V2.Params).maxSize :=
  (c3_sizer {} (1/2) 10000 200).1 (by norm_num) (by norm_num)
    (by show (0:ℚ) < 3/2; norm_num)
    (by show (2:ℚ) = ((200:ℕ):ℚ)/100; norm_num)
    (by norm_num)

-- ======================================================================
-- Claim C5
-- ======================================================================

/-- Claim C5: in the EXECUTE TRADES dispatch, Long takes precedence — whenever
the Long rule set fires the engine opens a Long (with the long-side levels)
regardless of the Short rules, and a Short entry is executed only when the
Long signal did not fire.  In particular on any bar where both rule sets were
simultaneously true, only a Long would open. -/
theorem c5_long_precedence (p : V2.Params) (i : V2.SignalInputs) (equity : ℚ) :
    (V2.longSignal p i = true →
       V2.entryAction p i equity = some (V2.Action.openLong
         (V2.calculatePositionSize p i.atr equity)
         (i.close - i.atr * p.atrStopMult)
         (i.close + i.atr * p.atrTargetMult)
         (i.close + i.atr * p.partTargetMult)))
  ∧ (V2.shortSignal p i = true → V2.longSignal p i = false →
       V2.entryAction p i equity = some (V2.Action.openShort
         (V2.calculatePositionSize p i.atr equity)
         (i.close + i.atr * p.atrStopMult)
         (i.close - i.atr * p.atrTargetMult)
         (i.close - i.atr * p.partTargetMult))) := by
  constructor
  · intro h
    simp [V2.entryAction, h]
  · intro hs hl
    simp [V2.entryAction, hs, hl]

-- ======================================================================
-- Claim C1
-- ======================================================================

/-- Counterexample for C1: one bar, two order intents.  An open long from 100
(ATR 2 at entry: stop 97, partial target 103, take-profit 105) sees the next
close jump to 106 — `check_partial_profit` submits a partial close of 1 lot,
and because `next` does not return after it, the take-profit check then
submits a second, full-close order in the same bar. -/
theorem c1_cex_two_intents_one_bar :
    (V2.manageOpenPosition {} c1LongOpen 106 2 2).2 =
      [Intent.partClose 1, Intent.fullClose] := by
  norm_num [V2.manageOpenPosition, V2.updateTrailingStop, V2.applyTrailLong,
    V2.checkPartProfit, c1LongOpen, truthyQ, roundDp, intRoundHalfEven]

/-- Claim C1 (amended): per bar with an open position the v2 engine emits at
most TWO intents, and the only two-intent pattern is a partial close followed
by a full close (the partial-exit branch does not short-circuit the remaining
stop-loss/take-profit checks of `next`); at most one full-close intent is ever
emitted per bar.  (In the strategies variant the partial-exit branch returns
immediately, so at most one intent per bar there.) -/
theorem c1_intent_shapes (p : V2.Params) (s : V2.BotState) (price atr posSize : ℚ) :
    (V2.manageOpenPosition p s price atr posSize).2 = []
  ∨ (V2.manageOpenPosition p s price atr posSize).2 = [Intent.fullClose]
  ∨ (∃ q, (V2.manageOpenPosition p s price atr posSize).2 = [Intent.partClose q])
  ∨ (∃ q, (V2.manageOpenPosition p s price atr posSize).2 =
        [Intent.partClose q, Intent.fullClose]) := by
  simp only [V2.manageOpenPosition]
  rcases hq : (V2.checkPartProfit p (V2.updateTrailingStop p s price atr posSize)
      price posSize).2 with _ | q <;>
    split_ifs <;> simp

/-- Witness for C5: a concrete bullish-crossover bar fires the Long rules and
the dispatch opens the Long. -/
theorem c5_witness :
    V2.longSignal {} sigLong = true ∧
      V2.entryAction {} sigLong 10000 = some (V2.Action.openLong
        (V2.calculatePositionSize {} sigLong.atr 10000)
        (sigLong.close - sigLong.atr * ({} : V2.Params).atrStopMult)
        (sigLong.close + sigLong.atr * ({} : V2.Params).atrTargetMult)
        (sigLong.close + sigLong.atr * ({} : V2.Params).partTargetMult)) :=
  ⟨by decide, (c5_long_precedence {} sigLong 10000).1 (by decide)⟩

-- ======================================================================
-- Claim C2
-- ======================================================================

theorem lossGateRead_eq_spec (p : V2.Params) (s : V2.BotState) :
    V2.lossGateRead p s = V2.specDailyLossVeto p s := by
  unfold V2.lossGateRead V2.specDailyLossVeto
  rcases hdsc : s.dailyStartingCash with _ | c
  · simp
  · by_cases hc : 0 < c
    · have habs : |s.dailyPnl / c| = |s.dailyPnl| / c := by
        rw [abs_div, abs_of_pos hc]
      by_cases hp : s.dailyPnl < 0 <;> simp [habs, hc, hp]
    · simp [hc]

theorem nextFlat_none_of_veto (p : V2.Params) (s : V2.BotState) (today : ℤ)
    (equity : ℚ) (hveto : (V2.checkRiskLimits p s today equity).1 = false)
    (dataLen : ℕ) (i : V2.SignalInputs) :
    (V2.nextFlat p s today equity dataLen i).2 = none := by
  simp only [V2.nextFlat]
  split_ifs <;> rfl

/-- Claim C2: when flat, the risk gates run after the daily rollover reset and
in the claimed order — daily loss cap (veto iff daily_pnl < 0 and
|daily_pnl| / daily_starting_equity × 100 ≥ max_daily_loss_pct, given a
recorded positive starting equity), daily trade cap, consecutive-loss cap,
post-loss cooldown — each short-circuiting the rest, and any veto suppresses
the whole signal-evaluation pipeline for the bar, so no entry can be submitted
on a vetoed bar, whatever the bar's indicators say. -/
theorem c2_risk_gates (p : V2.Params) (s : V2.BotState) (today : ℤ) (equity : ℚ) :
    (V2.checkRiskLimits p s today equity).2 = V2.resetDailyStats s today equity
  ∧ ((V2.checkRiskLimits p s today equity).1 = true ↔
       V2.firstRiskVeto p (V2.resetDailyStats s today equity) = none)
  ∧ ((V2.checkRiskLimits p s today equity).1 = false →
       ∀ (dataLen : ℕ) (i : V2.SignalInputs),
         (V2.nextFlat p s today equity dataLen i).2 = none) := by
  refine ⟨?_, ?_, ?_⟩
  · simp only [V2.checkRiskLimits]
    split_ifs <;> rfl
  · simp only [V2.checkRiskLimits, V2.firstRiskVeto, lossGateRead_eq_spec]
    split_ifs <;> simp_all
  · intro hveto dataLen i
    exact nextFlat_none_of_veto p s today equity hveto dataLen i

/-- Witness for C2 at a concrete state: three consecutive losses on the books
veto the bar, the state comes back rolled over, and no entry is emitted even
though the bar carries a valid long signal. -/
theorem c2_witness :
    ((V2.checkRiskLimits {} c2VetoState 0 10000).1 = true ↔
       V2.firstRiskVeto {} (V2.resetDailyStats c2VetoState 0 10000) = none)
  ∧ (V2.nextFlat {} c2VetoState 0 10000 30 sigLong).2 = none :=
  ⟨(c2_risk_gates {} c2VetoState 0 10000).2.1,
   (c2_risk_gates {} c2VetoState 0 10000).2.2
     (by norm_num [V2.checkRiskLimits, V2.resetDailyStats, V2.lossGateRead,
        c2VetoState, freshFlat]) 30 sigLong⟩

-- ======================================================================
-- Claim C6
-- ======================================================================

theorem resetDailyStats_consec (s : V2.BotState) (t : ℤ) (ev : ℚ) :
    (V2.resetDailyStats s t ev).consecLosses = s.consecLosses := by
  unfold V2.resetDailyStats
  split_ifs <;> rfl

theorem checkRiskLimits_false_of_streak (p : V2.Params) (s : V2.BotState)
    (t : ℤ) (ev : ℚ) (h : p.maxConsecLosses ≤ s.consecLosses) :
    (V2.checkRiskLimits p s t ev).1 = false := by
  simp only [V2.checkRiskLimits]
  split_ifs with h1 h2 h3 h4 <;> try rfl
  exact absurd (by rw [resetDailyStats_consec]; exact h) h3

theorem streakCap_vetoes_entry (p : V2.Params) (s : V2.BotState) (today : ℤ)
    (equity : ℚ) (dataLen : ℕ) (i : V2.SignalInputs)
    (h : p.maxConsecLosses ≤ s.consecLosses) :
    (V2.nextFlat p s today equity dataLen i).2 = none :=
  nextFlat_none_of_veto p s today equity
    (checkRiskLimits_false_of_streak p s today equity h) dataLen i

theorem tickBars_saturates (s : V2.BotState) :
    (V2.tickBars s).barsSinceTrade =
      if s.barsSinceTrade < 100 then s.barsSinceTrade + 1 else s.barsSinceTrade := by
  unfold V2.tickBars
  split_ifs <;> rfl

/-- Claim C6 (code evaluated at the failing inputs): the claimed streak
transition fails on both close paths.  A LOSING sell fill that fully closes a
long (entry 100, exit 90, size 1 — realized P&L (90−100)·|1| < 0; the position
is already flat at notification, so `self.position.size > 0` is false and the
`# Was short` formula books +10) RESETS `consecutive_losses` from 1 to 0
instead of incrementing it, and adds +10 to `daily_pnl`; and a LOSING close of
a short (entry 50, exit 60, size 2) arrives as a buy fill, which never reaches
the P&L code, leaving the streak at 1.  (The saturating bars counter and the
streak-cap veto parts of the claim do hold: `tickBars_saturates` and
`streakCap_vetoes_entry`.) -/
theorem c6_losing_closes_break_streak :
    ((90 : ℚ) - 100) * |(1 : ℚ)| < 0
  ∧ (V2.notifyOrder { freshFlat with entryPrice := some 100, consecLosses := 1 }
       false 90 1 0).consecLosses = 0
  ∧ (V2.notifyOrder { freshFlat with entryPrice := some 100, consecLosses := 1 }
       false 90 1 0).dailyPnl = 10
  ∧ ((50 : ℚ) - 60) * |(2 : ℚ)| < 0
  ∧ (V2.notifyOrder
       { freshFlat with entryPrice := some 50, consecLosses := 1, order := true }
       true 60 2 0).consecLosses = 1 := by
  refine ⟨by rw [abs_one]; norm_num, ?_, ?_,
    by rw [show |(2:ℚ)| = 2 from abs_of_pos (by norm_num)]; norm_num, rfl⟩
  · norm_num [V2.notifyOrder, truthyQ, freshFlat, abs_one]
  · norm_num [V2.notifyOrder, truthyQ, freshFlat, abs_one]

-- ======================================================================
-- Claim C4
-- ======================================================================

theorem checkPartProfit_keeps_stop (p : V2.Params) (s : V2.BotState)
    (price posSize : ℚ) :
    (V2.checkPartProfit p s price posSize).1.stopLoss = s.stopLoss ∧
    (V2.checkPartProfit p s price posSize).1.trailingActive = s.trailingActive := by
  obtain ⟨o, ep, slv, tp, pt, pd, dt, dpn, ld, cl, bt, dsc, hpv, lpv, ta⟩ := s
  rcases pt with _ | ptv <;> (unfold V2.checkPartProfit; dsimp only) <;>
    split_ifs <;> exact ⟨rfl, rfl⟩

theorem applyTrailLong_mono (p : V2.Params) (s : V2.BotState) (atr hp sl : ℚ)
    (hsl : s.stopLoss = some sl) (hact : s.trailingActive = true) :
    ∃ sl2, (V2.applyTrailLong p s atr hp).stopLoss = some sl2 ∧ sl ≤ sl2 ∧
      (V2.applyTrailLong p s atr hp).trailingActive = true := by
  unfold V2.applyTrailLong
  rw [if_pos hact]
  refine ⟨if sl < hp - atr * p.trailDist then hp - atr * p.trailDist else sl,
    ?_, ?_, ?_⟩
  · dsimp only
    rw [hsl]
  · split_ifs with h
    · exact le_of_lt h
    · exact le_refl sl
  · exact hact

theorem applyTrailShort_mono (p : V2.Params) (s : V2.BotState) (atr lp sl : ℚ)
    (hsl : s.stopLoss = some sl) (hact : s.trailingActive = true) :
    ∃ sl2, (V2.applyTrailShort p s atr lp).stopLoss = some sl2 ∧ sl2 ≤ sl ∧
      (V2.applyTrailShort p s atr lp).trailingActive = true := by
  unfold V2.applyTrailShort
  rw [if_pos hact]
  refine ⟨if lp + atr * p.trailDist < sl then lp + atr * p.trailDist else sl,
    ?_, ?_, ?_⟩
  · dsimp only
    rw [hsl]
  · split_ifs with h
    · exact le_of_lt h
    · exact le_refl sl
  · exact hact

theorem botState_setHighest_trailing (s : V2.BotState) (x : Option ℚ) :
    ({ s with highestPrice := x } : V2.BotState).trailingActive = s.trailingActive :=
  rfl

theorem botState_setLowest_trailing (s : V2.BotState) (x : Option ℚ) :
    ({ s with lowestPrice := x } : V2.BotState).trailingActive = s.trailingActive :=
  rfl

theorem updateTrail_long_mono (p : V2.Params) (s : V2.BotState)
    (price atr posSize sl : ℚ) (hact : s.trailingActive = true)
    (hsl : s.stopLoss = some sl) (hpos : 0 < posSize) :
    ∃ sl2, (V2.updateTrailingStop p s price atr posSize).stopLoss = some sl2 ∧
      sl ≤ sl2 ∧ (V2.updateTrailingStop p s price atr posSize).trailingActive = true := by
  have h0 : decide (posSize = 0) = false := decide_eq_false (ne_of_gt hpos)
  by_cases hut : p.useTrailing
  · simp only [V2.updateTrailingStop, hut, h0, Bool.not_true, Bool.false_or,
      Bool.or_false, Bool.false_eq_true, if_false, if_pos hpos,
      botState_setHighest_trailing, hact, Bool.false_and]
    exact applyTrailLong_mono p _ atr _ sl hsl rfl
  · have hc : (!p.useTrailing || decide (posSize = 0)) = true := by
      simp [hut]
    simp only [V2.updateTrailingStop, hc, if_true]
    exact ⟨sl, hsl, le_refl sl, hact⟩

theorem updateTrail_short_mono (p : V2.Params) (s : V2.BotState)
    (price atr posSize sl : ℚ) (hact : s.trailingActive = true)
    (hsl : s.stopLoss = some sl) (hneg : posSize < 0) :
    ∃ sl2, (V2.updateTrailingStop p s price atr posSize).stopLoss = some sl2 ∧
      sl2 ≤ sl ∧ (V2.updateTrailingStop p s price atr posSize).trailingActive = true := by
  have h0 : decide (posSize = 0) = false := decide_eq_false (ne_of_lt hneg)
  have hnp : ¬(0 < posSize) := not_lt.mpr (le_of_lt hneg)
  by_cases hut : p.useTrailing
  · simp only [V2.updateTrailingStop, hut, h0, Bool.not_true, Bool.false_or,
      Bool.or_false, Bool.false_eq_true, if_false, if_neg hnp, if_pos hneg,
      botState_setLowest_trailing, hact, Bool.false_and]
    exact applyTrailShort_mono p _ atr _ sl hsl rfl
  · have hc : (!p.useTrailing || decide (posSize = 0)) = true := by
      simp [hut]
    simp only [V2.updateTrailingStop, hc, if_true]
    exact ⟨sl, hsl, le_refl sl, hact⟩

theorem manageOpen_stop_eq_trailUpdate (p : V2.Params) (s : V2.BotState)
    (price atr posSize : ℚ) :
    (V2.manageOpenPosition p s price atr posSize).1.stopLoss =
      (V2.updateTrailingStop p s price atr posSize).stopLoss := by
  simp only [V2.manageOpenPosition]
  split_ifs <;> exact (checkPartProfit_keeps_stop p _ price posSize).1

/-- Counterexample for C4 (strategies variant): a three-bar trace of
`update_stop_and_target` on a long from 100 (entry ATR 2.5).  Bar A (close
102, ATR 2.5) only lifts the watermark; bar B (close 100.9, ATR 1) activates
the trailing stop off the 102 watermark and raises the stop to 100.8; bar C
(close 101.5, ATR 1.2) then fires the BREAKEVEN move — which is not
improvement-gated — overwriting the stop down to 100.12 before trailing
recovers it only to 100.56 < 100.8.  With `trailing_active` true since bar B
and no intent emitted, the stop DECREASED across bars on a long position. -/
theorem c4_cex_breakeven_lowers_trailing_stop :
    c4r1.2 = none ∧ c4r2.2 = none ∧ c4r3.2 = none
  ∧ c4r2.1.trailingActive = true ∧ c4r2.1.stopLoss = some (504/5)
  ∧ c4r3.1.trailingActive = true ∧ c4r3.1.stopLoss = some (2514/25)
  ∧ (2514/25 : ℚ) < 504/5 := by
  norm_num [c4r3, c4r2, c4r1, c4s0, V1.updateStopAndTarget, V1.exitChecksLong,
    truthyQ]

/-- Claim C4 (amended): in the v2 engine — which has no breakeven move — the
claim holds: once `trailing_active` is set with a stop in place, one full
per-bar position-management pass can only keep or raise the stop of a long
position and only keep or lower the stop of a short, since the watermark
candidate is applied only when it improves the stop and nothing else writes
the stop while the position is open.  In the strategies variant the breakeven
move is NOT improvement-gated and can worsen the stop after trailing
activation (see the counterexample). -/
theorem c4_trailing_stop_monotone (p : V2.Params) (s : V2.BotState)
    (price atr posSize sl : ℚ) (hact : s.trailingActive = true)
    (hsl : s.stopLoss = some sl) :
    (0 < posSize → ∃ sl2,
        (V2.manageOpenPosition p s price atr posSize).1.stopLoss = some sl2 ∧
          sl ≤ sl2)
  ∧ (posSize < 0 → ∃ sl2,
        (V2.manageOpenPosition p s price atr posSize).1.stopLoss = some sl2 ∧
          sl2 ≤ sl) := by
  constructor
  · intro hpos
    obtain ⟨sl2, h1, h2, _⟩ := updateTrail_long_mono p s price atr posSize sl hact hsl hpos
    exact ⟨sl2, by rw [manageOpen_stop_eq_trailUpdate, h1], h2⟩
  · intro hneg
    obtain ⟨sl2, h1, h2, _⟩ := updateTrail_short_mono p s price atr posSize sl hact hsl hneg
    exact ⟨sl2, by rw [manageOpen_stop_eq_trailUpdate, h1], h2⟩

/-- Witness for C4 on a concrete long with an active trailing stop at 104.4:
after the bar the stop is still at least 104.4. -/
theorem c4_witness :
    ∃ sl2, (V2.manageOpenPosition {} c4LongTrailing (521/5) 2 2).1.stopLoss = some sl2 ∧
      (522/5 : ℚ) ≤ sl2 :=
  (c4_trailing_stop_monotone {} c4LongTrailing (521/5) 2 2 (522/5) rfl rfl).1
    (by norm_num)
